import Mathlib

/-!
Verification development for the data-aggregation and filter-evaluation core of
the EZsciplot GUI test-data engine (file entrance.py, class TestData).

Modelling conventions, kept uniform through the file:

* Python floats are modelled as exact rationals (ℚ).  All arithmetic the code
  performs on data values (means, variances, range masks, decimal formatting)
  is exact rational arithmetic here; transcendental functions (sin, cos, exp,
  log, π) and the NumPy pseudo-random stream, whose exact IEEE-754 values are
  irrelevant to every claim below, are abstract parameters gathered in the
  MathModel structure.
* numpy.std returns the square root of the population variance; the square
  root is irrational, so the statistics records carry the variance (named
  with a var suffix) and statements about the reported std are phrased via
  the variance (std = sqrt var, so std is nonnegative iff var is, and std is
  the value NumPy reports).
* The data cache (self.data_cache, a Python dict with string keys written in
  insertion order) is modelled as an association list threaded explicitly
  through every operation that may touch it; dictInsert mirrors dict
  assignment (overwrite in place when the key is present, append otherwise).
* Python dict lookups in check_parameter_condition_independently use
  summary.get(label, default); the summary is built writing each configured
  label once, so under distinct labels (true of the shipped configurations)
  the association-list first-match lookup below agrees with the dict.
-/

namespace EZsciplot

attribute [local semireducible] Rat.add Rat.mul Rat.inv Rat.sub Rat.ofScientific

/-! ## Character and string utilities (Python str semantics used by the code) -/

/-- Python whitespace characters recognised by str.strip / the regex class. -/
def isPySpace (c : Char) : Bool :=
  c = ' ' || c = '\t' || c = '\n' || c = '\r' || c = '\x0b' || c = '\x0c'

/-- str.strip on a character list: drop whitespace at both ends. -/
def trimChars (cs : List Char) : List Char :=
  ((cs.dropWhile isPySpace).reverse.dropWhile isPySpace).reverse

/-- str.strip producing a String (used where the code compares stripped text). -/
def pyStrip (s : String) : String :=
  String.mk (trimChars s.data)

/-- Decimal digit character for d in 0..9. -/
def digitChar (d : Nat) : Char :=
  match d with
  | 0 => '0' | 1 => '1' | 2 => '2' | 3 => '3' | 4 => '4'
  | 5 => '5' | 6 => '6' | 7 => '7' | 8 => '8' | _ => '9'

/-- Fuel-driven decimal rendering of a natural number (fuel-first so every
application reduces by kernel computation). -/
def natDigitsAux : Nat → Nat → List Char → List Char
  | 0, _, acc => acc
  | fuel + 1, n, acc =>
    if n < 10 then digitChar n :: acc
    else natDigitsAux fuel (n / 10) (digitChar (n % 10) :: acc)

/-- Decimal rendering of a natural number, as Python str(n) produces it. -/
def natStr (n : Nat) : String :=
  String.mk (natDigitsAux (n + 1) n [])

/-- Numeric value of a digit list (most significant first). -/
def digitsVal (cs : List Char) : Nat :=
  cs.foldl (fun n c => 10 * n + (c.toNat - 48)) 0

/-- Does the first list occur as an initial segment of the second? -/
def startsWithChars : List Char → List Char → Bool
  | [], _ => true
  | _ :: _, [] => false
  | a :: as, b :: bs => a == b && startsWithChars as bs

/-! ## Base-10 logarithm on naturals (fuel-driven so it kernel-reduces) -/

/-- Fuel-driven splitter on a nonempty separator, the semantics of Python
str.split(sep): split at each non-overlapping occurrence, left to right. -/
def splitSepAux (sep : List Char) : Nat → List Char → List Char → List (List Char)
  | 0, rest, acc => [acc.reverse ++ rest]
  | _ + 1, [], acc => [acc.reverse]
  | fuel + 1, c :: rest, acc =>
    if startsWithChars sep (c :: rest) then
      acc.reverse :: splitSepAux sep fuel (List.drop (sep.length - 1) rest) []
    else splitSepAux sep fuel rest (c :: acc)

/-- Python s.split(sep) for a nonempty separator. -/
def pySplit (s sep : String) : List String :=
  (splitSepAux sep.data (s.data.length + 1) s.data []).map String.mk

/-- Fuel-driven floor base-10 logarithm: log10 n for n ≥ 1, 0 for n < 10. -/
def natLog10Aux : Nat → Nat → Nat
  | 0, _ => 0
  | fuel + 1, n => if n < 10 then 0 else natLog10Aux fuel (n / 10) + 1

/-- Floor of log10 on naturals (junk value 0 below 1). -/
def natLog10 (n : Nat) : Nat :=
  natLog10Aux n n

/-! ## The significant-figure formatter (format_significant_figures) -/

/-- Round-half-even of a rational to an integer, the rounding that the Python
format specifier .Nf applies to the scaled value. -/
def roundHalfEven (q : ℚ) : ℤ :=
  let f := ⌊q⌋
  let r := q - (f : ℚ)
  if r < 1 / 2 then f
  else if 1 / 2 < r then f + 1
  else if f % 2 = 0 then f else f + 1

/-- Left-pad a digit list with zeros to the requested width. -/
def padZeros (width : Nat) (cs : List Char) : List Char :=
  List.replicate (width - cs.length) '0' ++ cs

/-- Python fixed-point formatting of a rational: the value v rendered as by
the format string with n decimal places (sign taken from the value, digits
from the half-even rounding of the scaled absolute value). -/
def fixedFmt (q : ℚ) (n : Nat) : String :=
  let scaled := |q| * (10 : ℚ) ^ n
  let r := (roundHalfEven scaled).toNat
  let intPart := (natStr (r / 10 ^ n)).data
  let fracPart := padZeros n (natStr (r % 10 ^ n)).data
  let sign : List Char := if q < 0 then ['-'] else []
  if n = 0 then String.mk (sign ++ intPart)
  else String.mk (sign ++ intPart ++ ['.'] ++ fracPart)

/-- Python signed-integer formatting with an always-present sign, as produced
by the +d format specifier for the exponent. -/
def intSignFmt (m : ℤ) : String :=
  if m < 0 then String.mk ('-' :: (natStr (-m).toNat).data)
  else String.mk ('+' :: (natStr m.toNat).data)

/-- Order of magnitude int(floor(log10(abs(val)))) computed exactly on ℚ:
scale the absolute value into the naturals by 10^K with K exceeding the
number of digits of the denominator, take the natural floor-log there and
shift back.  Junk value 0 at q = 0 (the formatter never reaches it). -/
def mag10 (q : ℚ) : ℤ :=
  let K := natLog10 q.den + 1
  (natLog10 (Int.toNat ⌊|q| * (10 : ℚ) ^ K⌋) : ℤ) - (K : ℤ)

/-- format_significant_figures from entrance.py on a numeric value: zero maps
to the literal 0.0000; otherwise scientific notation (mantissa to sig_figs-1
decimals, e, signed exponent) when the magnitude is at least 4 or below -2,
and fixed notation with sig_figs - magnitude - 1 decimals (clamped at 0 in
the code's magnitude ≥ 0 branch) in the middle band. -/
def format_significant_figures (value : ℚ) (sig_figs : Nat := 5) : String :=
  if value = 0 then "0.0000"
  else
    let magnitude := mag10 value
    if 4 ≤ magnitude ∨ magnitude < -2 then
      let mantissa := value / (10 : ℚ) ^ magnitude
      fixedFmt mantissa (sig_figs - 1) ++ "e" ++ intSignFmt magnitude
    else
      let decimalPlaces : ℤ :=
        if 0 ≤ magnitude then max 0 ((sig_figs : ℤ) - magnitude - 1)
        else (sig_figs : ℤ) - magnitude - 1
      fixedFmt value decimalPlaces.toNat

/-! ## Inverse parser (parse_formatted_value) -/

/-- Sign prefix of a Python float literal. -/
def parseSign : List Char → Bool × List Char
  | '-' :: r => (true, r)
  | '+' :: r => (false, r)
  | cs => (false, cs)

/-- The Python float(str) grammar restricted to finite decimal/scientific
literals: optional sign, digits with an optional dot (at least one digit in
the mantissa), optional e/E exponent with optional sign.  The named
infinities and nans, which no formatter output ever contains, are omitted. -/
def parseFloatChars (cs : List Char) : Option ℚ :=
  let sp := parseSign cs
  let ip := sp.2.takeWhile Char.isDigit
  let cs2 := sp.2.dropWhile Char.isDigit
  let fpRest : List Char × List Char :=
    match cs2 with
    | '.' :: r => (r.takeWhile Char.isDigit, r.dropWhile Char.isDigit)
    | _ => ([], cs2)
  if ip.isEmpty && fpRest.1.isEmpty then none
  else
    let mant : ℚ :=
      (digitsVal ip : ℚ) + (digitsVal fpRest.1 : ℚ) / (10 : ℚ) ^ fpRest.1.length
    let signed := if sp.1 then -mant else mant
    match fpRest.2 with
    | [] => some signed
    | e :: r =>
      if e = 'e' || e = 'E' then
        let esp := parseSign r
        let ed := esp.2.takeWhile Char.isDigit
        let rest := esp.2.dropWhile Char.isDigit
        if ed.isEmpty || !rest.isEmpty then none
        else
          let ex : ℤ := if esp.1 then -(digitsVal ed : ℤ) else (digitsVal ed : ℤ)
          some (signed * (10 : ℚ) ^ ex)
      else none

/-- float(s) after Python's implicit strip, as an Option. -/
def pyFloat (s : String) : Option ℚ :=
  parseFloatChars (trimChars s.data)

/-- parse_formatted_value from entrance.py: float(formatted_str), catching
failures into the numeric fallback 0.0 (the code's branch on a contained e
performs the same conversion in both arms). -/
def parse_formatted_value (s : String) : ℚ :=
  (pyFloat s).getD 0

/-! ## Expression parser (parse_filter_expression) -/

/-- The regex group -?\d+\.?\d* anchored to the whole remaining input:
optional minus, at least one integer digit, optional dot, optional fraction
digits, nothing after. -/
def parseRegexNum (cs : List Char) : Option ℚ :=
  let sr : Bool × List Char := match cs with
    | '-' :: r => (true, r)
    | _ => (false, cs)
  let ip := sr.2.takeWhile Char.isDigit
  let cs2 := sr.2.dropWhile Char.isDigit
  if ip.isEmpty then none
  else
    let fpRest : List Char × List Char :=
      match cs2 with
      | '.' :: r => (r.takeWhile Char.isDigit, r.dropWhile Char.isDigit)
      | _ => ([], cs2)
    if !fpRest.2.isEmpty then none
    else
      let mant : ℚ :=
        (digitsVal ip : ℚ) + (digitsVal fpRest.1 : ℚ) / (10 : ℚ) ^ fpRest.1.length
      some (if sr.1 then -mant else mant)

/-- One pattern of the parser's precedence list: the literal operator text,
then \s*, then the anchored number group. -/
def tryOpPattern (opChars : List Char) (opName : String) (e : List Char) :
    Option (String × ℚ) :=
  if startsWithChars opChars e then
    (parseRegexNum ((e.drop opChars.length).dropWhile isPySpace)).map
      (fun v => (opName, v))
  else none

/-- parse_filter_expression from entrance.py: strip, then try the anchored
patterns for >=, <=, !=, >, <, =, bare number (bare number meaning =) in
that order; None when nothing matches or the input is empty. -/
def parse_filter_expression (expression : String) : Option (String × ℚ) :=
  let e := trimChars expression.data
  if e.isEmpty then none
  else
    (tryOpPattern ['>', '='] ">=" e).orElse fun _ =>
    (tryOpPattern ['<', '='] "<=" e).orElse fun _ =>
    (tryOpPattern ['!', '='] "!=" e).orElse fun _ =>
    (tryOpPattern ['>'] ">" e).orElse fun _ =>
    (tryOpPattern ['<'] "<" e).orElse fun _ =>
    (tryOpPattern ['='] "=" e).orElse fun _ =>
    (parseRegexNum e).map (fun v => ("=", v))

/-! ## Data model: plot series, specimen datasets, the dataset cache -/

/-- A PlotSeries: either single-series (x, y) or dual-series (x, y1, y2),
with the title / axis-label strings the generators attach. -/
inductive PlotSeries : Type
  | single (x y : List ℚ) (title xlabel ylabel : String)
  | dual (x y1 y2 : List ℚ) (title xlabel ylabel : String)
deriving DecidableEq

/-- The equal-length invariant NumPy guarantees for every generated series. -/
def seriesWF : PlotSeries → Bool
  | .single x y _ _ _ => y.length == x.length
  | .dual x y1 y2 _ _ _ => y1.length == x.length && y2.length == x.length

/-- Abstract stand-in for _generate_single_plot_data as the cache-level code
consumes it: a pure map from (site, specimen, slot index) to the slot's
series (the generator itself reseeds before every call, see
generate_single_plot_data below, so it is such a map within a run). -/
def GenFun : Type := String → String → Nat → PlotSeries

/-- The dataset cache self.data_cache: a Python dict with string keys,
modelled as an association list in insertion order. -/
abbrev Cache : Type := List (String × List PlotSeries)

/-- Dict read d.get(k) / d[k]: first match wins (keys are unique: entries are
only created by dictInsert). -/
def cacheFind (d : Cache) (k : String) : Option (List PlotSeries) :=
  (d.find? (fun p => p.1 == k)).map (·.2)

/-- Dict assignment d[k] = v: overwrite in place when the key is present,
append otherwise (Python dicts preserve insertion order). -/
def dictInsert {V : Type} (k : String) (v : V) (d : List (String × V)) :
    List (String × V) :=
  if (d.find? (fun p => p.1 == k)).isSome then
    d.map (fun p => if p.1 == k then (k, v) else p)
  else d ++ [(k, v)]

/-- The cache key string f-string site_specimen. -/
def cacheKey (site specimen : String) : String :=
  site ++ "_" ++ specimen

/-- The per-specimen generation loop shared by _initialize_all_data and the
cache-miss path: plot{i+1} maps to slot i for i below num_plots; the dict
keyed plot1..plotN is modelled as the list indexed 0..N-1. -/
def specimen_gen_data (gen : GenFun) (num_plots : Nat) (site specimen : String) :
    List PlotSeries :=
  (List.range num_plots).map (fun i => gen site specimen i)

/-- generate_specimen_data_for_data_box from entrance.py: cached lookup with
regenerate-and-insert on a miss.  Returns the dataset and the cache state
after the call. -/
def generate_specimen_data_for_data_box (gen : GenFun) (num_plots : Nat)
    (cache : Cache) (site specimen : String) : List PlotSeries × Cache :=
  match cacheFind cache (cacheKey site specimen) with
  | some d => (d, cache)
  | none =>
    let d := specimen_gen_data gen num_plots site specimen
    (d, dictInsert (cacheKey site specimen) d cache)

/-! ## Statistics helpers (NumPy reductions on the in-range values) -/

/-- numpy.mean of a list of rationals. -/
def listMean (l : List ℚ) : ℚ :=
  l.sum / (l.length : ℚ)

/-- Population variance, the square of numpy.std: mean squared deviation. -/
def listVar (l : List ℚ) : ℚ :=
  ((l.map (fun y => (y - listMean l) ^ 2)).sum) / (l.length : ℚ)

/-- numpy.min on a nonempty list (junk 0 on empty, never reached: the code
guards every reduction by np.any(range_mask)). -/
def listMin : List ℚ → ℚ
  | [] => 0
  | a :: t => t.foldl min a

/-- numpy.max on a nonempty list (junk 0 on empty). -/
def listMax : List ℚ → ℚ
  | [] => 0
  | a :: t => t.foldl max a

/-- numpy.median: sort, take the middle element (odd length) or the average
of the two middle elements (even length). -/
def listMedian (l : List ℚ) : ℚ :=
  let s := List.insertionSort (fun a b => a ≤ b) l
  if l.length % 2 = 1 then s.getD (l.length / 2) 0
  else (s.getD (l.length / 2 - 1) 0 + s.getD (l.length / 2) 0) / 2

/-! ## Range aggregator (calculate_range_based_averages) -/

/-- The inclusive range mask (x_values >= range_down) & (x_values <= range_up). -/
def inRange (range_down range_up x : ℚ) : Bool :=
  range_down ≤ x && x ≤ range_up

/-- Statistics entry of one single-series slot (std reported as variance). -/
structure SingleStats : Type where
  x_range_count : Nat
  y_average : ℚ
  y_var : ℚ
  y_min : ℚ
  y_max : ℚ
  y_median : ℚ
  x_min : ℚ
  x_max : ℚ
deriving DecidableEq

/-- Statistics entry of one dual-series slot (stds reported as variances). -/
structure MultiStats : Type where
  x_range_count : Nat
  y1_average : ℚ
  y2_average : ℚ
  combined_average : ℚ
  y1_var : ℚ
  y2_var : ℚ
  x_min : ℚ
  x_max : ℚ
deriving DecidableEq

/-- One slot's entry in plot_averages: statistics, or the 'No data points in
specified range' error marker (which the code tags with the series type). -/
inductive SlotEntry : Type
  | single (s : SingleStats)
  | multi (m : MultiStats)
  | singleError
  | multiError
deriving DecidableEq

/-- Is this entry the error marker ('error' key present in the dict)? -/
def SlotEntry.isError : SlotEntry → Bool
  | .singleError => true
  | .multiError => true
  | _ => false

/-- Process one slot: filter the series by the x-range mask, then either the
statistics entry plus this slot's contribution to the pooled y-values, or
the error marker and no contribution. -/
def processSlot (range_down range_up : ℚ) : PlotSeries → SlotEntry × List ℚ
  | .single x y _ _ _ =>
    let kept := (x.zip y).filter (fun p => inRange range_down range_up p.1)
    if kept.isEmpty then (.singleError, [])
    else
      let xr := kept.map (·.1)
      let yr := kept.map (·.2)
      (.single { x_range_count := kept.length, y_average := listMean yr,
                 y_var := listVar yr, y_min := listMin yr, y_max := listMax yr,
                 y_median := listMedian yr, x_min := listMin xr, x_max := listMax xr },
       yr)
  | .dual x y1 y2 _ _ _ =>
    let kept := (x.zip (y1.zip y2)).filter (fun p => inRange range_down range_up p.1)
    if kept.isEmpty then (.multiError, [])
    else
      let xr := kept.map (·.1)
      let y1r := kept.map (·.2.1)
      let y2r := kept.map (·.2.2)
      (.multi { x_range_count := kept.length, y1_average := listMean y1r,
                y2_average := listMean y2r, combined_average := listMean (y1r ++ y2r),
                y1_var := listVar y1r, y2_var := listVar y2r,
                x_min := listMin xr, x_max := listMax xr },
       y1r ++ y2r)

/-- plot_averages of the aggregator: slot i appears exactly when the dataset
has an entry for plot{i+1} (i.e. index i), carrying that slot's entry. -/
def plotAveragesOf (num_plots : Nat) (data : List PlotSeries)
    (range_down range_up : ℚ) : List (Nat × SlotEntry) :=
  (List.range num_plots).filterMap (fun i =>
    (data[i]?).map (fun ps => (i, (processSlot range_down range_up ps).1)))

/-- all_y_values of the aggregator: the slots' pooled contributions in loop
order (empty for error slots and absent slots). -/
def allInRangeY (num_plots : Nat) (data : List PlotSeries)
    (range_down range_up : ℚ) : List ℚ :=
  (List.range num_plots).flatMap (fun i =>
    match data[i]? with
    | some ps => (processSlot range_down range_up ps).2
    | none => [])

/-- overall_statistics when any pooled value exists. -/
structure OverallStats : Type where
  total_data_points : Nat
  overall_average : ℚ
  overall_var : ℚ
  overall_min : ℚ
  overall_max : ℚ
  overall_median : ℚ
  range_coverage : String
  valid_plots : Nat
deriving DecidableEq

/-- The full result record of calculate_range_based_averages;
overall_statistics is none exactly when the code stores the top-level
'No valid data points found in any plot within specified range' marker. -/
structure RangeAverages : Type where
  site : String
  specimen : String
  range_up : ℚ
  range_down : ℚ
  plot_averages : List (Nat × SlotEntry)
  overall_statistics : Option OverallStats
deriving DecidableEq

/-- Overall statistics record over the pooled values. -/
def mkOverall (range_down range_up : ℚ) (pool : List ℚ) (valid_plots : Nat) :
    OverallStats :=
  { total_data_points := pool.length, overall_average := listMean pool,
    overall_var := listVar pool, overall_min := listMin pool,
    overall_max := listMax pool, overall_median := listMedian pool,
    range_coverage := fixedFmt range_down 0 ++ " to " ++ fixedFmt range_up 0,
    valid_plots := valid_plots }

/-- The pure body of calculate_range_based_averages on an already-fetched
dataset. -/
def calcRangeAverages (num_plots : Nat) (data : List PlotSeries)
    (site specimen : String) (range_up range_down : ℚ) : RangeAverages :=
  let pa := plotAveragesOf num_plots data range_down range_up
  let pool := allInRangeY num_plots data range_down range_up
  { site := site, specimen := specimen, range_up := range_up,
    range_down := range_down, plot_averages := pa,
    overall_statistics :=
      if pool.isEmpty then none
      else some (mkOverall range_down range_up pool
        ((pa.filter (fun p => ! p.2.isError)).length)) }

/-- calculate_range_based_averages from entrance.py: fetch the dataset
through the cache (possibly inserting on a miss) and aggregate. -/
def calculate_range_based_averages (gen : GenFun) (num_plots : Nat)
    (cache : Cache) (site specimen : String) (range_up range_down : ℚ) :
    RangeAverages × Cache :=
  let dc := generate_specimen_data_for_data_box gen num_plots cache site specimen
  (calcRangeAverages num_plots dc.1 site specimen range_up range_down, dc.2)

/-! ## Configuration (the __init__ label construction) -/

/-- The default parameter label pool of __init__. -/
def default_labels : List String :=
  ["Temperature", "Pressure", "Humidity", "Voltage", "Current",
   "Resistance", "Frequency", "Amplitude", "Phase", "Power"]

/-- Default label for index i: the pool entry when available, else Param i+1. -/
def defaultLabel (i : Nat) : String :=
  (default_labels[i]?).getD ("Param " ++ natStr (i + 1))

/-- The __init__ parameter_labels construction: a custom list is used when it
is truthy (non-None, nonempty) and long enough, truncated to num_params;
otherwise the defaults padded with Param i+1. -/
def build_param_labels (num_params : Nat) (custom : Option (List String)) :
    List String :=
  match custom with
  | some c =>
    if !c.isEmpty && num_params ≤ c.length then c.take num_params
    else (List.range num_params).map defaultLabel
  | none => (List.range num_params).map defaultLabel

/-- The configuration fields of a TestData instance that the aggregation and
filtering pipeline reads (parameter_labels has length num_params by
construction; data_display_labels is a copy of parameter_labels). -/
structure TestDataConfig : Type where
  num_plots : Nat
  num_params : Nat
  parameter_labels : List String
deriving DecidableEq

/-- self.data_display_labels = self.parameter_labels.copy(). -/
def data_display_labels (cfg : TestDataConfig) : List String :=
  cfg.parameter_labels

/-! ## Parameter summary builder (get_range_based_specimen_summary) -/

/-- Dict read summary.get(label, default) on the built summary. -/
def lookupD (l : List (String × String)) (k d : String) : String :=
  ((l.find? (fun p => p.1 == k)).map (·.2)).getD d

/-- The summary loop body: the display value of parameter index i.  Slot i
within num_plots with an error-free entry contributes the combined average
(dual) or the y average (single) formatted to 5 significant figures;
everything else is the literal N/A. -/
def summaryValue (cfg : TestDataConfig) (ra : RangeAverages) (i : Nat) : String :=
  if i < cfg.num_plots then
    match List.lookup i ra.plot_averages with
    | some (SlotEntry.multi m) => format_significant_figures m.combined_average 5
    | some (SlotEntry.single s) => format_significant_figures s.y_average 5
    | some _ => "N/A"
    | none => "N/A"
  else "N/A"

/-- The pure body of get_range_based_specimen_summary: one write per
parameter index 0..num_params-1, keyed by data_display_labels[i]. -/
def buildSummary (cfg : TestDataConfig) (ra : RangeAverages) :
    List (String × String) :=
  (List.range cfg.num_params).map (fun i =>
    ((data_display_labels cfg).getD i "", summaryValue cfg ra i))

/-- get_range_based_specimen_summary from entrance.py, threading the cache. -/
def get_range_based_specimen_summary (gen : GenFun) (cfg : TestDataConfig)
    (cache : Cache) (site specimen : String) (range_up range_down : ℚ) :
    List (String × String) × Cache :=
  let rc := calculate_range_based_averages gen cfg.num_plots cache site specimen
    range_up range_down
  (buildSummary cfg rc.1, rc.2)

/-! ## Condition evaluator (check_parameter_condition_independently) -/

/-- The evaluation the code performs after fetching the summary: look up the
display string (default '0'), parse the condition (pass on failure), pass on
the N/A or empty display string, then decide: string equality of stripped
display vs 5-significant-figure-formatted threshold for =, its negation for
!=, numeric comparison of the parsed-back display value for the order
operators. -/
def evalParamCondition (cfg : TestDataConfig) (summary : List (String × String))
    (idx : Nat) (condition_str : String) : Bool :=
  let param_label := cfg.parameter_labels.getD idx ""
  let specimen_value_str := lookupD summary param_label "0"
  match parse_filter_expression condition_str with
  | none => true
  | some (op, threshold) =>
    if specimen_value_str = "N/A" ∨ specimen_value_str = "" then true
    else if op = "=" then
      pyStrip specimen_value_str == pyStrip (format_significant_figures threshold 5)
    else
      let specimen_value := parse_formatted_value specimen_value_str
      if op = ">" then decide (specimen_value > threshold)
      else if op = ">=" then decide (specimen_value ≥ threshold)
      else if op = "<" then decide (specimen_value < threshold)
      else if op = "<=" then decide (specimen_value ≤ threshold)
      else if op = "!=" then
        !(pyStrip specimen_value_str == pyStrip (format_significant_figures threshold 5))
      else true

/-- check_parameter_condition_independently from entrance.py: pass-through on
an out-of-bounds parameter index or an empty/whitespace condition (before
touching any data), otherwise compute the summary for the range and evaluate
the condition on the displayed string.  Total: no case raises. -/
def check_parameter_condition_independently (gen : GenFun) (cfg : TestDataConfig)
    (cache : Cache) (site specimen : String) (parameter_index : ℤ)
    (condition_str : String) (range_up range_down : ℚ) : Bool × Cache :=
  if parameter_index < 0 ∨ (cfg.parameter_labels.length : ℤ) ≤ parameter_index then
    (true, cache)
  else if (trimChars condition_str.data).isEmpty then
    (true, cache)
  else
    let sc := get_range_based_specimen_summary gen cfg cache site specimen
      range_up range_down
    (evalParamCondition cfg sc.1 parameter_index.toNat condition_str, sc.2)

/-! ## Site statistics aggregator (generate_single_site_plot_data) -/

/-- Selection parsing for one site: keep the strings of shape
site → specimen (split on the arrow separator into exactly two parts) whose
stripped site half equals the requested site; everything else is skipped.
(The dict-shaped legacy entries the code also accepts carry the same
site/specimen content and are not modelled separately.) -/
def parseSelectedForSite (site_name : String) (selected_items : List String) :
    List String :=
  selected_items.filterMap (fun item =>
    let parts := pySplit item " → "
    if parts.length = 2 then
      if pyStrip (parts.getD 0 "") = site_name then some (pyStrip (parts.getD 1 ""))
      else none
    else none)

/-- The per-specimen numeric value list: for each display label with index
below num_params, the parsed-back display value, or 0.0 for N/A (missing
labels read as N/A through the dict default). -/
def summary_values (cfg : TestDataConfig) (summary : List (String × String)) :
    List ℚ :=
  ((data_display_labels cfg).enum.filter (fun p => p.1 < cfg.num_params)).map
    (fun p =>
      let value_str := lookupD summary p.2 "N/A"
      if value_str ≠ "N/A" then parse_formatted_value value_str else 0)

/-- The summary-collection loop: one specimen at a time, threading the cache. -/
def site_specimen_summaries (gen : GenFun) (cfg : TestDataConfig)
    (site : String) (range_up range_down : ℚ) :
    Cache → List String → List (List (String × String)) × Cache
  | c, [] => ([], c)
  | c, sp :: rest =>
    let r := get_range_based_specimen_summary gen cfg c site sp range_up range_down
    let t := site_specimen_summaries gen cfg site range_up range_down r.2 rest
    (r.1 :: t.1, t.2)

/-- One per-parameter stat bundle (std, and the derived mean ± std band, are
the square root of the reported variance). -/
structure ParamStat : Type where
  mean : ℚ
  var : ℚ
  count : Nat
deriving DecidableEq

/-- One specimen's row in plot_averages of the site preview data. -/
structure SpecimenValues : Type where
  specimen : String
  values : List ℚ
deriving DecidableEq

/-- The parameter_stats loop: for each parameter index below
min(num_params, length of the first value row), pool the idx-th value of
every row that is long enough and take mean/std/count; all-zero bundle when
the pool is empty; no bundles at all when no rows exist. -/
def computeParamStats (num_params : Nat) (all_specimen_values : List (List ℚ)) :
    List ParamStat :=
  match all_specimen_values with
  | [] => []
  | v0 :: _ =>
    (List.range (min num_params v0.length)).map (fun idx =>
      let param_values := all_specimen_values.filterMap (fun v => v[idx]?)
      if param_values.isEmpty then { mean := 0, var := 0, count := 0 }
      else { mean := listMean param_values, var := listVar param_values,
             count := param_values.length })

/-- The result record of generate_single_site_plot_data (none models the
empty-dict returns of the guard clauses). -/
structure SitePlotData : Type where
  site : String
  specimens : List String
  range_up : ℚ
  range_down : ℚ
  plot_averages : List SpecimenValues
  parameter_stats : List ParamStat
  specimen_count : Nat
deriving DecidableEq

/-- generate_single_site_plot_data from entrance.py: guard on the placeholder
site, parse the selection, fall back to the whole site catalog entry when
the selection has nothing for this site (empty dict when the site is
unknown), then collect per-specimen value rows and per-parameter
mean/std/count bundles. -/
def generate_single_site_plot_data (gen : GenFun) (cfg : TestDataConfig)
    (sites : List (String × List String)) (cache : Cache) (site_name : String)
    (selected_items : List String) (range_up range_down : ℚ) :
    Option SitePlotData × Cache :=
  if site_name = "" ∨ site_name = "Select a site..." then (none, cache)
  else
    let parsed := parseSelectedForSite site_name selected_items
    if parsed.isEmpty && (sites.lookup site_name).isNone then (none, cache)
    else
      let site_specimens :=
        if parsed.isEmpty then (sites.lookup site_name).getD [] else parsed
      let sc := site_specimen_summaries gen cfg site_name range_up range_down
        cache site_specimens
      let specimen_data_list := (site_specimens.zip sc.1).map (fun p =>
        { specimen := p.1, values := summary_values cfg p.2 : SpecimenValues })
      let all_specimen_values :=
        (specimen_data_list.map (·.values)).filter (fun v => !v.isEmpty)
      (some { site := site_name, specimens := site_specimens,
              range_up := range_up, range_down := range_down,
              plot_averages := specimen_data_list,
              parameter_stats := computeParamStats cfg.num_params all_specimen_values,
              specimen_count := site_specimens.length },
       sc.2)

/-- Count of selected specimens whose displayed summary value for the given
label is a parseable number (not N/A): the quantity the specification's
count field description refers to. -/
def parseable_contributors (summaries : List (List (String × String)))
    (label : String) : Nat :=
  (summaries.filter (fun s =>
    let v := lookupD s label "N/A"
    v ≠ "N/A" && (pyFloat v).isSome)).length

/-! ## Catalog, eager initialization, cache info -/

/-- The static site/specimen catalog of __init__. -/
def sitesCatalog : List (String × List String) :=
  [("Site A", ["Sample A1", "Sample A2", "Sample A3"]),
   ("Site B", ["Sample B1", "Sample B2"]),
   ("Site C", ["Sample C1", "Sample C2", "Sample C3", "Sample C4"]),
   ("Site D", ["Sample D1", "Sample D2"])]

/-- The (site, specimen) pairs of the catalog in iteration order. -/
def initPairs (sites : List (String × List String)) : List (String × String) :=
  sites.flatMap (fun p => p.2.map (fun sp => (p.1, sp)))

/-- _initialize_all_data from entrance.py: for every site and specimen of the
catalog, generate all plots and store them under the cache key (the
np.random.seed(42) call it makes first has no observable effect here: every
slot generation reseeds itself, see generate_single_plot_data). -/
def _initialize_all_data (gen : GenFun) (num_plots : Nat)
    (sites : List (String × List String)) (c0 : Cache) : Cache :=
  (initPairs sites).foldl
    (fun c p => dictInsert (cacheKey p.1 p.2) (specimen_gen_data gen num_plots p.1 p.2) c)
    c0

/-- clear_data_cache from entrance.py: empty the cache, then re-run the full
eager population. -/
def clear_data_cache (gen : GenFun) (num_plots : Nat)
    (sites : List (String × List String)) (_cache : Cache) : Cache :=
  _initialize_all_data gen num_plots sites []

/-- The record get_cache_info returns. -/
structure CacheInfo : Type where
  total_specimens : Nat
  cached_specimens : Nat
  cache_complete : Bool
  sites : List String
  cached_keys : List String
deriving DecidableEq

/-- get_cache_info from entrance.py. -/
def get_cache_info (sites : List (String × List String)) (cache : Cache) :
    CacheInfo :=
  { total_specimens := (sites.map (fun p => p.2.length)).sum,
    cached_specimens := cache.length,
    cache_complete := cache.length == (sites.map (fun p => p.2.length)).sum,
    sites := sites.map (fun p => p.1),
    cached_keys := cache.map (fun p => p.1) }

/-! ## Specimen dataset generator (_generate_single_plot_data and shapes)

The global NumPy random generator is modelled as an explicit state (seed of
the last np.random.seed call plus the number of variates drawn since); the
actual Mersenne-Twister outputs, the transcendental functions and π, and the
per-run Python string hash are abstract parameters collected in MathModel.
This resolves exactly what the determinism claim needs: which state the
draws depend on. -/

/-- The global np.random state: last seed, and position in its stream. -/
structure NpState : Type where
  seed : Nat
  pos : Nat
deriving DecidableEq

/-- Abstract mathematical environment: per-run string hash, the uniform and
gaussian stream values by (seed, position), transcendental functions, π. -/
structure MathModel : Type where
  pyHash : String → ℤ
  unif : Nat → Nat → ℚ
  gauss : Nat → Nat → ℚ
  sinQ : ℚ → ℚ
  cosQ : ℚ → ℚ
  expQ : ℚ → ℚ
  logQ : ℚ → ℚ
  piQ : ℚ

/-- np.random.seed(n). -/
def npSeed (n : Nat) : NpState :=
  { seed := n, pos := 0 }

/-- np.random.random(n): n uniform variates off the current stream, advancing
the position. -/
def npRandom (M : MathModel) (n : Nat) (s : NpState) : List ℚ × NpState :=
  ((List.range n).map (fun i => M.unif s.seed (s.pos + i)),
   { seed := s.seed, pos := s.pos + n })

/-- np.random.normal(mu, sigma, n). -/
def npNormal (M : MathModel) (mu sigma : ℚ) (n : Nat) (s : NpState) :
    List ℚ × NpState :=
  ((List.range n).map (fun i => mu + sigma * M.gauss s.seed (s.pos + i)),
   { seed := s.seed, pos := s.pos + n })

/-- np.linspace(a, b, n). -/
def linspace (a b : ℚ) (n : Nat) : List ℚ :=
  (List.range n).map (fun i => a + (b - a) * (i : ℚ) / ((n : ℚ) - 1))

/-- The f-string title every shape attaches. -/
def plotTitle (plot_num : Nat) (sample_name : String) : String :=
  "Plot " ++ natStr plot_num ++ " - " ++ sample_name

/-- _generate_sin_data. -/
def _generate_sin_data (M : MathModel) (plot_num : Nat) (sample_name : String)
    (s : NpState) : PlotSeries × NpState :=
  let x := linspace 0 10 50
  let r := npRandom M 50 s
  let y := (x.zip r.1).map (fun p =>
    M.sinQ (p.1 + (plot_num : ℚ) * (1 / 2)) + (1 / 10) * p.2)
  (.single x y (plotTitle plot_num sample_name) "X Values" "Y Values", r.2)

/-- _generate_exp_data. -/
def _generate_exp_data (M : MathModel) (plot_num : Nat) (sample_name : String)
    (s : NpState) : PlotSeries × NpState :=
  let x := linspace 0 5 30
  let r := npRandom M 30 s
  let y := (x.zip r.1).map (fun p =>
    M.expQ (-p.1 * (plot_num : ℚ) * (3 / 10)) + (1 / 20) * p.2)
  (.single x y (plotTitle plot_num sample_name) "X Values" "Y Values", r.2)

/-- _generate_multi_line_data: two sequential draws of 40 variates. -/
def _generate_multi_line_data (M : MathModel) (plot_num : Nat)
    (sample_name : String) (s : NpState) : PlotSeries × NpState :=
  let x := linspace 0 8 40
  let r1 := npRandom M 40 s
  let r2 := npRandom M 40 r1.2
  let y1 := (x.zip r1.1).map (fun p =>
    M.cosQ (p.1 + (plot_num : ℚ) * (1 / 5)) + (1 / 10) * p.2)
  let y2 := (x.zip r2.1).map (fun p =>
    M.sinQ (p.1 + (plot_num : ℚ) * (3 / 10)) + (1 / 10) * p.2)
  (.dual x y1 y2 (plotTitle plot_num sample_name) "X Values" "Y Values", r2.2)

/-- _generate_polynomial_data. -/
def _generate_polynomial_data (M : MathModel) (plot_num : Nat)
    (sample_name : String) (s : NpState) : PlotSeries × NpState :=
  let x := linspace 0 6 25
  let r := npRandom M 25 s
  let y := (x.zip r.1).map (fun p =>
    p.1 ^ 2 * ((1 / 10) * (plot_num : ℚ)) + (1 / 20) * p.2)
  (.single x y (plotTitle plot_num sample_name) "X Values" "Y Values", r.2)

/-- _generate_gaussian_data (a Lorentzian-shaped curve, rational throughout). -/
def _generate_gaussian_data (M : MathModel) (plot_num : Nat)
    (sample_name : String) (s : NpState) : PlotSeries × NpState :=
  let x := linspace (-5) 5 100
  let r := npRandom M 100 s
  let y := (x.zip r.1).map (fun p =>
    1 / (1 + p.1 ^ 2) * (plot_num : ℚ) * (1 / 2) + (1 / 50) * p.2)
  (.single x y (plotTitle plot_num sample_name) "X Values" "Y Values", r.2)

/-- _generate_log_data. -/
def _generate_log_data (M : MathModel) (plot_num : Nat) (sample_name : String)
    (s : NpState) : PlotSeries × NpState :=
  let x := linspace (1 / 10) 4 35
  let r := npRandom M 35 s
  let y := (x.zip r.1).map (fun p =>
    M.logQ (p.1 + (plot_num : ℚ) * (1 / 2)) + (1 / 10) * p.2)
  (.single x y (plotTitle plot_num sample_name) "X Values" "Y Values", r.2)

/-- _generate_damped_oscillation_data. -/
def _generate_damped_oscillation_data (M : MathModel) (plot_num : Nat)
    (sample_name : String) (s : NpState) : PlotSeries × NpState :=
  let x := linspace 0 10 50
  let r := npRandom M 50 s
  let y := (x.zip r.1).map (fun p =>
    M.expQ (-p.1 * (1 / 5)) * M.sinQ (p.1 * (plot_num : ℚ)) + (1 / 20) * p.2)
  (.single x y (plotTitle plot_num sample_name) "X Values" "Y Values", r.2)

/-- _generate_spiral_data: x is t·cos(t + plot_num), not monotone. -/
def _generate_spiral_data (M : MathModel) (plot_num : Nat)
    (sample_name : String) (s : NpState) : PlotSeries × NpState :=
  let t := linspace 0 (4 * M.piQ) 50
  let r := npRandom M 50 s
  let x := t.map (fun v => v * M.cosQ (v + (plot_num : ℚ)))
  let y := (t.zip r.1).map (fun p =>
    p.1 * M.sinQ (p.1 + (plot_num : ℚ)) + (1 / 10) * p.2)
  (.single x y (plotTitle plot_num sample_name) "X Values" "Y Values", r.2)

/-- _generate_noise_data. -/
def _generate_noise_data (M : MathModel) (plot_num : Nat) (sample_name : String)
    (s : NpState) : PlotSeries × NpState :=
  let x := linspace 0 5 30
  let r := npNormal M 0 (1 / 2) 30 s
  let y := r.1.map (fun v => (plot_num : ℚ) * (1 / 2) + v)
  (.single x y (plotTitle plot_num sample_name) "X Values" "Y Values", r.2)

/-- _generate_step_data. -/
def _generate_step_data (M : MathModel) (plot_num : Nat) (sample_name : String)
    (s : NpState) : PlotSeries × NpState :=
  let x := linspace 0 10 50
  let r := npRandom M 50 s
  let y := (x.zip r.1).map (fun p =>
    (if p.1 < 5 then (plot_num : ℚ) * (3 / 10) else (plot_num : ℚ) * (4 / 5))
      + (1 / 10) * p.2)
  (.single x y (plotTitle plot_num sample_name) "X Values" "Y Values", r.2)

/-- The plot_types dispatch list, in source order. -/
def plot_types (M : MathModel) :
    List (Nat → String → NpState → PlotSeries × NpState) :=
  [_generate_sin_data M, _generate_exp_data M, _generate_multi_line_data M,
   _generate_polynomial_data M, _generate_gaussian_data M, _generate_log_data M,
   _generate_damped_oscillation_data M, _generate_spiral_data M,
   _generate_noise_data M, _generate_step_data M]

/-- _generate_single_plot_data from entrance.py: build the seed string
site_specimen_slot, reseed the global generator with abs(hash) mod 2^32,
and dispatch on slot mod 10.  The incoming generator state is discarded by
the reseed, which is exactly the determinism device the code documents. -/
def _generate_single_plot_data (M : MathModel) (plot_index : Nat)
    (specimen site_name : String) (_s : NpState) : PlotSeries × NpState :=
  let seed_string := site_name ++ "_" ++ specimen ++ "_" ++ natStr plot_index
  let seed := (M.pyHash seed_string).natAbs % 2 ^ 32
  ((plot_types M).getD (plot_index % (plot_types M).length)
      (fun _ _ st => (.single [] [] "" "" "", st)))
    (plot_index + 1) specimen (npSeed seed)

/-- The pure (site, specimen, slot) → series map induced by the generator,
used as the GenFun of the cache-level code: well-defined because the result
does not depend on the incoming state. -/
def dataOf (M : MathModel) : GenFun :=
  fun site specimen i => (_generate_single_plot_data M i specimen site (npSeed 42)).1

/-! ## Spec-side comparison functions and concrete fixtures -/

/-- The x-values of a series that fall in the inclusive window, the quantity
the specification's empty-range policy is phrased in. -/
def xsInRange (range_down range_up : ℚ) : PlotSeries → List ℚ
  | .single x _ _ _ _ => x.filter (fun v => inRange range_down range_up v)
  | .dual x _ _ _ _ _ => x.filter (fun v => inRange range_down range_up v)

/-- The pooled values as the specification describes them: only slots without
the error marker contribute their in-range y-values. -/
def spec_pool_excluding_error_slots (num_plots : Nat) (data : List PlotSeries)
    (range_down range_up : ℚ) : List ℚ :=
  (List.range num_plots).flatMap (fun i =>
    match data[i]? with
    | some ps =>
      if (processSlot range_down range_up ps).1.isError then []
      else (processSlot range_down range_up ps).2
    | none => [])

/-- The empty-dict return value of generate_single_site_plot_data's guard
clauses, used to project the optional result. -/
def emptySitePlotData : SitePlotData :=
  { site := "", specimens := [], range_up := 0, range_down := 0,
    plot_averages := [], parameter_stats := [], specimen_count := 0 }

/-- Concrete one-shape generator for witnesses: every slot is the same
single-series plot with x-values 1, 2 and both y-values 12.3451. -/
def testGen : GenFun :=
  fun _ _ _ => .single [1, 2] [12.3451, 12.3451] "" "" ""

/-- Concrete one-plot one-parameter configuration for witnesses. -/
def testCfg : TestDataConfig :=
  { num_plots := 1, num_params := 1, parameter_labels := ["Temperature"] }

/-- Concrete one-site catalog for witnesses. -/
def testSites : List (String × List String) :=
  [("Site A", ["Sample A1", "Sample A2"])]

/-! ## Theorems -/

/-- C9: for every (site, specimen, slot) triple the generator is a pure map:
its result is independent of the incoming global-random-generator state
(two calls with identical inputs in one run are bit-identical), because the
body rebuilds the state from abs(hash(site_specimen_slot)) mod 2^32 before
drawing anything — the second conjunct exhibits exactly that reseeding. -/
theorem C9_generator_determinism :
    (∀ (M : MathModel) (plot_index : Nat) (specimen site_name : String)
       (s1 s2 : NpState),
       _generate_single_plot_data M plot_index specimen site_name s1 =
         _generate_single_plot_data M plot_index specimen site_name s2) ∧
    (∀ (M : MathModel) (plot_index : Nat) (specimen site_name : String)
       (s : NpState),
       _generate_single_plot_data M plot_index specimen site_name s =
         ((plot_types M).getD (plot_index % (plot_types M).length)
             (fun _ _ st => (.single [] [] "" "" "", st)))
           (plot_index + 1) specimen
           (npSeed ((M.pyHash
             (site_name ++ "_" ++ specimen ++ "_" ++ natStr plot_index)).natAbs
             % 2 ^ 32))) :=
  ⟨fun _ _ _ _ _ _ => rfl, fun _ _ _ _ _ => rfl⟩

/-- Bounds characterizing the fuel-driven base-10 logarithm. -/
theorem natLog10Aux_bounds :
    ∀ (fuel n : Nat), 1 ≤ n → n ≤ fuel →
      10 ^ natLog10Aux fuel n ≤ n ∧ n < 10 ^ (natLog10Aux fuel n + 1) := by
  intro fuel
  induction fuel with
  | zero => intro n h1 h2; omega
  | succ f ih =>
    intro n h1 h2
    by_cases h : n < 10
    · simp only [natLog10Aux, h, if_true]
      constructor
      · simpa using h1
      · simpa using h
    · simp only [natLog10Aux, h, if_false]
      have hn10 : 1 ≤ n / 10 := (Nat.one_le_div_iff (by norm_num)).mpr (by omega)
      have hf : n / 10 ≤ f := by
        have := Nat.div_lt_self (by omega : 0 < n) (by norm_num : 1 < 10)
        omega
      obtain ⟨ha, hb⟩ := ih (n / 10) hn10 hf
      constructor
      · calc 10 ^ (natLog10Aux f (n / 10) + 1)
            = 10 ^ natLog10Aux f (n / 10) * 10 := by ring
          _ ≤ n / 10 * 10 := Nat.mul_le_mul_right 10 ha
          _ ≤ n := Nat.div_mul_le_self n 10
      · have hmod : n < (n / 10 + 1) * 10 := by
          have hdm := Nat.div_add_mod n 10
          have hlt := Nat.mod_lt n (by norm_num : 0 < 10)
          omega
        calc n < (n / 10 + 1) * 10 := hmod
          _ ≤ 10 ^ (natLog10Aux f (n / 10) + 1) * 10 :=
            Nat.mul_le_mul_right 10 (by omega)
          _ = 10 ^ (natLog10Aux f (n / 10) + 1 + 1) := by ring

/-- Bounds for natLog10 on positive naturals. -/
theorem natLog10_bounds (n : Nat) (h : 1 ≤ n) :
    10 ^ natLog10 n ≤ n ∧ n < 10 ^ (natLog10 n + 1) :=
  natLog10Aux_bounds n n h le_rfl

/-- Workhorse for the magnitude computation: scaling the absolute value past
the denominator and taking the natural floor-log brackets the value between
consecutive integer powers of ten. -/
theorem mag10_spec (q : ℚ) (hq : q ≠ 0) (K : Nat)
    (hK : (q.den : ℚ) < (10 : ℚ) ^ K) :
    (10 : ℚ) ^ ((natLog10 (Int.toNat ⌊|q| * (10 : ℚ) ^ K⌋) : ℤ) - (K : ℤ)) ≤ |q| ∧
    |q| < (10 : ℚ) ^ ((natLog10 (Int.toNat ⌊|q| * (10 : ℚ) ^ K⌋) : ℤ) - (K : ℤ) + 1) := by
  have hden : 0 < q.den := q.den_pos
  have hdq : (0 : ℚ) < (q.den : ℚ) := by exact_mod_cast hden
  have hnum : q.num ≠ 0 := Rat.num_ne_zero.mpr hq
  have habs : |q| = (q.num.natAbs : ℚ) / (q.den : ℚ) := by
    conv_lhs => rw [← Rat.num_div_den q]
    rw [abs_div, Int.cast_natAbs, abs_of_pos hdq, Int.cast_abs]
  have hscale : (1 : ℚ) < |q| * (10 : ℚ) ^ K := by
    have h1 : (1 : ℚ) ≤ (q.num.natAbs : ℚ) := by
      have h2 : 1 ≤ q.num.natAbs := by
        have := Int.natAbs_pos.mpr hnum
        omega
      exact_mod_cast h2
    calc (1 : ℚ) < (10 : ℚ) ^ K / (q.den : ℚ) := by
          rw [lt_div_iff hdq]; simpa using hK
      _ = (1 / (q.den : ℚ)) * (10 : ℚ) ^ K := by ring
      _ ≤ ((q.num.natAbs : ℚ) / (q.den : ℚ)) * (10 : ℚ) ^ K := by
          apply mul_le_mul_of_nonneg_right _ (by positivity)
          rw [div_le_div_iff_of_pos_right hdq]
          exact h1
      _ = |q| * (10 : ℚ) ^ K := by rw [habs]
  have hN1 : 1 ≤ ⌊|q| * (10 : ℚ) ^ K⌋ := by
    rw [Int.le_floor]
    exact_mod_cast hscale.le
  have h4 : ((Int.toNat ⌊|q| * (10 : ℚ) ^ K⌋ : Nat) : ℤ) = ⌊|q| * (10 : ℚ) ^ K⌋ :=
    Int.toNat_of_nonneg (by omega)
  have hNn : ((Int.toNat ⌊|q| * (10 : ℚ) ^ K⌋ : Nat) : ℚ) =
      ((⌊|q| * (10 : ℚ) ^ K⌋ : ℤ) : ℚ) := by
    conv_rhs => rw [← h4]
    push_cast
    ring
  have hn1 : 1 ≤ Int.toNat ⌊|q| * (10 : ℚ) ^ K⌋ := by omega
  obtain ⟨hL1, hL2⟩ := natLog10_bounds _ hn1
  have hfl : ((⌊|q| * (10 : ℚ) ^ K⌋ : ℤ) : ℚ) ≤ |q| * (10 : ℚ) ^ K := Int.floor_le _
  have hfu : |q| * (10 : ℚ) ^ K < ((⌊|q| * (10 : ℚ) ^ K⌋ : ℤ) : ℚ) + 1 :=
    Int.lt_floor_add_one _
  have hlow : ((10 : ℚ) ^ natLog10 (Int.toNat ⌊|q| * (10 : ℚ) ^ K⌋)) ≤
      |q| * (10 : ℚ) ^ K := by
    calc ((10 : ℚ) ^ natLog10 (Int.toNat ⌊|q| * (10 : ℚ) ^ K⌋))
        ≤ ((Int.toNat ⌊|q| * (10 : ℚ) ^ K⌋ : Nat) : ℚ) := by exact_mod_cast hL1
      _ = _ := hNn
      _ ≤ _ := hfl
  have hup : |q| * (10 : ℚ) ^ K <
      (10 : ℚ) ^ (natLog10 (Int.toNat ⌊|q| * (10 : ℚ) ^ K⌋) + 1) := by
    have hstep : ((⌊|q| * (10 : ℚ) ^ K⌋ : ℤ) : ℚ) + 1 ≤
        (10 : ℚ) ^ (natLog10 (Int.toNat ⌊|q| * (10 : ℚ) ^ K⌋) + 1) := by
      rw [← hNn]
      have h3 : (Int.toNat ⌊|q| * (10 : ℚ) ^ K⌋) + 1 ≤
          10 ^ (natLog10 (Int.toNat ⌊|q| * (10 : ℚ) ^ K⌋) + 1) := hL2
      exact_mod_cast h3
    exact hfu.trans_le hstep
  have h10K : (0 : ℚ) < (10 : ℚ) ^ K := by positivity
  have hten : (10 : ℚ) ≠ 0 := by norm_num
  constructor
  · rw [zpow_sub₀ hten, zpow_natCast, zpow_natCast, div_le_iff h10K]
    exact hlow
  · have hexp : ((natLog10 (Int.toNat ⌊|q| * (10 : ℚ) ^ K⌋) : ℤ) - (K : ℤ) + 1) =
        ((natLog10 (Int.toNat ⌊|q| * (10 : ℚ) ^ K⌋) + 1 : Nat) : ℤ) - (K : ℤ) := by
      push_cast; ring
    rw [hexp, zpow_sub₀ hten, zpow_natCast, zpow_natCast, lt_div_iff h10K]
    exact hup

/-- The computed magnitude is the floor of the base-10 logarithm: it is an
integer m with 10^m ≤ |q| < 10^(m+1). -/
theorem mag10_bounds (q : ℚ) (hq : q ≠ 0) :
    (10 : ℚ) ^ mag10 q ≤ |q| ∧ |q| < (10 : ℚ) ^ (mag10 q + 1) := by
  have hden : 0 < q.den := q.den_pos
  have hK : (q.den : ℚ) < (10 : ℚ) ^ (natLog10 q.den + 1) := by
    exact_mod_cast (natLog10_bounds q.den hden).2
  exact mag10_spec q hq (natLog10 q.den + 1) hK

/-- C6: the significant-figure formatter maps zero to the literal 0.0000; for
nonzero values the computed magnitude is exactly floor(log10 |value|)
(bracketed between consecutive powers of ten), the output is scientific
(mantissa to 4 decimals, e, signed exponent) when the magnitude is at least
4 or below -2, and otherwise fixed with 5 - magnitude - 1 decimal places
(the code's clamp at 0 never bites there, as the bounds 1..6 show, so the
total count of significant digits is 5); in particular format(123456),
format(0.001) are scientific and format(12.345) is the fixed 12.345. -/
theorem C6_format_significant_figures :
    format_significant_figures 0 5 = "0.0000" ∧
    (∀ q : ℚ, q ≠ 0 →
      (10 : ℚ) ^ mag10 q ≤ |q| ∧ |q| < (10 : ℚ) ^ (mag10 q + 1)) ∧
    (∀ q : ℚ, q ≠ 0 → (4 ≤ mag10 q ∨ mag10 q < -2) →
      format_significant_figures q 5 =
        fixedFmt (q / (10 : ℚ) ^ mag10 q) 4 ++ "e" ++ intSignFmt (mag10 q)) ∧
    (∀ q : ℚ, q ≠ 0 → ¬(4 ≤ mag10 q ∨ mag10 q < -2) →
      format_significant_figures q 5 = fixedFmt q (((5 : ℤ) - mag10 q - 1).toNat) ∧
      1 ≤ (5 : ℤ) - mag10 q - 1 ∧ (5 : ℤ) - mag10 q - 1 ≤ 6) ∧
    format_significant_figures 123456 5 = "1.2346e+5" ∧
    format_significant_figures (1 / 1000) 5 = "1.0000e-3" ∧
    format_significant_figures (12.345 : ℚ) 5 = "12.345" := by
  refine ⟨by decide, fun q hq => mag10_bounds q hq, ?_, ?_, by decide, by decide,
    by decide⟩
  · intro q hq hbr
    simp only [format_significant_figures, if_neg hq, if_pos hbr]
  · intro q hq hbr
    have hm : mag10 q < 4 ∧ -2 ≤ mag10 q := by
      push_neg at hbr
      exact hbr
    refine ⟨?_, by omega, by omega⟩
    simp only [format_significant_figures, if_neg hq, if_neg hbr]
    congr 1
    by_cases h0 : 0 ≤ mag10 q
    · rw [if_pos h0, max_eq_right (by push_cast; omega)]
      push_cast
      ring
    · rw [if_neg h0]
      push_cast
      ring

/-- Witness instantiating the quantified conjuncts of the formatter theorem
at concrete inputs. -/
theorem C6_format_significant_figures_witness :
    ((10 : ℚ) ^ mag10 123456 ≤ |(123456 : ℚ)| ∧
      |(123456 : ℚ)| < (10 : ℚ) ^ (mag10 123456 + 1)) ∧
    format_significant_figures 123456 5 =
      fixedFmt ((123456 : ℚ) / (10 : ℚ) ^ mag10 123456) 4 ++ "e" ++
        intSignFmt (mag10 123456) ∧
    format_significant_figures (1 / 2) 5 =
      fixedFmt (1 / 2) (((5 : ℤ) - mag10 (1 / 2) - 1).toNat) :=
  ⟨C6_format_significant_figures.2.1 123456 (by decide),
   C6_format_significant_figures.2.2.1 123456 (by decide) (by decide),
   (C6_format_significant_figures.2.2.2.1 (1 / 2) (by decide) (by decide)).1⟩

/-- The population variance reported through every std field is nonnegative. -/
theorem listVar_nonneg (l : List ℚ) : 0 ≤ listVar l := by
  unfold listVar
  apply div_nonneg
  · apply List.sum_nonneg
    intro x hx
    obtain ⟨y, _, rfl⟩ := List.mem_map.mp hx
    positivity
  · positivity

/-- C4: the condition evaluator passes (returns true) on an out-of-bounds
parameter index, on an empty-after-strip condition string, on a condition
string the expression parser rejects, and on a summary display string N/A;
being a total function it raises nothing in any of these cases. -/
theorem C4_fail_open_pass_through :
    ∀ (gen : GenFun) (cfg : TestDataConfig) (cache : Cache)
      (site specimen : String) (parameter_index : ℤ) (condition_str : String)
      (range_up range_down : ℚ),
      ((parameter_index < 0 ∨ (cfg.parameter_labels.length : ℤ) ≤ parameter_index) →
        (check_parameter_condition_independently gen cfg cache site specimen
          parameter_index condition_str range_up range_down).1 = true) ∧
      (trimChars condition_str.data = [] →
        (check_parameter_condition_independently gen cfg cache site specimen
          parameter_index condition_str range_up range_down).1 = true) ∧
      (parse_filter_expression condition_str = none →
        (check_parameter_condition_independently gen cfg cache site specimen
          parameter_index condition_str range_up range_down).1 = true) ∧
      (lookupD (get_range_based_specimen_summary gen cfg cache site specimen
            range_up range_down).1
          (cfg.parameter_labels.getD parameter_index.toNat "") "0" = "N/A" →
        (check_parameter_condition_independently gen cfg cache site specimen
          parameter_index condition_str range_up range_down).1 = true) := by
  intro gen cfg cache site specimen idx cond up down
  by_cases h1 : idx < 0 ∨ (cfg.parameter_labels.length : ℤ) ≤ idx
  · simp only [check_parameter_condition_independently, if_pos h1]
    exact ⟨fun _ => trivial, fun _ => trivial, fun _ => trivial, fun _ => trivial⟩
  · by_cases h2 : (trimChars cond.data).isEmpty
    · simp only [check_parameter_condition_independently, if_neg h1, if_pos h2]
      exact ⟨fun _ => trivial, fun _ => trivial, fun _ => trivial, fun _ => trivial⟩
    · simp only [check_parameter_condition_independently, if_neg h1, if_neg h2]
      refine ⟨fun h => absurd h h1, ?_, ?_, ?_⟩
      · intro h
        rw [h] at h2
        simp at h2
      · intro h
        simp only [evalParamCondition, h]
      · intro h
        simp only [evalParamCondition]
        split
        · rfl
        · rw [if_pos (Or.inl h)]

/-- Witness: the pass-through cases evaluated at concrete inputs. -/
theorem C4_fail_open_pass_through_witness :
    ((5 : ℤ) < 0 ∨ ((testCfg.parameter_labels.length : ℤ) ≤ 5)) ∧
    (check_parameter_condition_independently testGen testCfg [] "Site A"
      "Sample A1" 5 ">3" 100 1).1 = true ∧
    parse_filter_expression "abc" = none ∧
    (check_parameter_condition_independently testGen testCfg [] "Site A"
      "Sample A1" 0 "abc" 100 1).1 = true :=
  ⟨by decide,
   (C4_fail_open_pass_through testGen testCfg [] "Site A" "Sample A1" 5 ">3"
     100 1).1 (by decide),
   by decide,
   (C4_fail_open_pass_through testGen testCfg [] "Site A" "Sample A1" 0 "abc"
     100 1).2.2.1 (by decide)⟩

/-- C1: once the evaluator reaches the comparison stage (index in bounds,
condition parses, display string not N/A and nonempty), its verdict is the
stated one per operator: string equality of the stripped display string
against the 5-significant-figure-formatted threshold for =, its negation
for !=, and numeric comparison of the parsed-back display string against
the raw threshold for the order operators; concretely, a specimen whose
stored values are 12.3451 displays 12.345 and satisfies =12.3452 (same
rendered string, different numbers) but fails =12.3456 (different rendered
strings, numbers 0.0005 apart). -/
theorem C1_condition_operator_semantics :
    (∀ (gen : GenFun) (cfg : TestDataConfig) (cache : Cache)
       (site specimen : String) (parameter_index : ℤ) (condition_str : String)
       (range_up range_down : ℚ) (op : String) (t : ℚ) (v : String),
       0 ≤ parameter_index →
       parameter_index < (cfg.parameter_labels.length : ℤ) →
       parse_filter_expression condition_str = some (op, t) →
       v = lookupD (get_range_based_specimen_summary gen cfg cache site specimen
             range_up range_down).1
             (cfg.parameter_labels.getD parameter_index.toNat "") "0" →
       v ≠ "N/A" → v ≠ "" →
       (check_parameter_condition_independently gen cfg cache site specimen
          parameter_index condition_str range_up range_down).1 =
        (if op = "=" then
           pyStrip v == pyStrip (format_significant_figures t 5)
         else if op = ">" then decide (parse_formatted_value v > t)
         else if op = ">=" then decide (parse_formatted_value v ≥ t)
         else if op = "<" then decide (parse_formatted_value v < t)
         else if op = "<=" then decide (parse_formatted_value v ≤ t)
         else if op = "!=" then
           !(pyStrip v == pyStrip (format_significant_figures t 5))
         else true)) ∧
    format_significant_figures (12.3451 : ℚ) 5 = "12.345" ∧
    format_significant_figures (12.3452 : ℚ) 5 = "12.345" ∧
    (12.3451 : ℚ) ≠ (12.3452 : ℚ) ∧
    (check_parameter_condition_independently testGen testCfg [] "Site A"
      "Sample A1" 0 "=12.3452" 100 1).1 = true ∧
    format_significant_figures (12.3456 : ℚ) 5 = "12.346" ∧
    |(12.3456 : ℚ) - 12.3451| < 1 / 1000 ∧
    (check_parameter_condition_independently testGen testCfg [] "Site A"
      "Sample A1" 0 "=12.3456" 100 1).1 = false := by
  refine ⟨?_, by decide, by decide, by decide, by decide, by decide, by decide,
    by decide⟩
  intro gen cfg cache site specimen idx cond up down op t v h0 hlen hp hv hna hne
  subst hv
  have h1 : ¬(idx < 0 ∨ (cfg.parameter_labels.length : ℤ) ≤ idx) := by omega
  have h2 : ¬(trimChars cond.data).isEmpty = true := by
    intro hemp
    rw [parse_filter_expression] at hp
    simp only [hemp, if_pos] at hp
    exact Option.noConfusion hp
  simp only [check_parameter_condition_independently, if_neg h1, if_neg h2]
  simp only [evalParamCondition, hp]
  rw [if_neg (by
    intro hcase
    cases hcase with
    | inl hh => exact hna hh
    | inr hh => exact hne hh)]

/-- Witness instantiating the operator-semantics theorem at the order
operator >= over the concrete fixture. -/
theorem C1_condition_operator_semantics_witness :
    parse_filter_expression ">=12" = some (">=", 12) ∧
    (check_parameter_condition_independently testGen testCfg [] "Site A"
      "Sample A1" 0 ">=12" 100 1).1 =
      (if (">=" : String) = "=" then
         pyStrip "12.345" == pyStrip (format_significant_figures 12 5)
       else if (">=" : String) = ">" then
         decide (parse_formatted_value "12.345" > 12)
       else if (">=" : String) = ">=" then
         decide (parse_formatted_value "12.345" ≥ 12)
       else if (">=" : String) = "<" then
         decide (parse_formatted_value "12.345" < 12)
       else if (">=" : String) = "<=" then
         decide (parse_formatted_value "12.345" ≤ 12)
       else if (">=" : String) = "!=" then
         !(pyStrip "12.345" == pyStrip (format_significant_figures 12 5))
       else true) :=
  ⟨by decide,
   C1_condition_operator_semantics.1 testGen testCfg [] "Site A" "Sample A1" 0
     ">=12" 100 1 ">=" 12 "12.345" (by decide) (by decide) (by decide)
     (by decide) (by decide) (by decide)⟩

/-- An inverted window makes the inclusive mask empty at every x. -/
theorem inRange_false_of_lt (d u x : ℚ) (h : u < d) : inRange d u x = false := by
  unfold inRange
  by_cases h1 : d ≤ x
  · have h2 : ¬ x ≤ u := by linarith
    simp [h1, h2]
  · simp [h1]

/-- With an inverted window every slot reports the empty-range error and
contributes nothing to the pool. -/
theorem processSlot_inverted (d u : ℚ) (h : u < d) (ps : PlotSeries) :
    (processSlot d u ps).1.isError = true ∧ (processSlot d u ps).2 = [] := by
  cases ps with
  | single x y ti xl yl =>
    have hf : (x.zip y).filter (fun p => inRange d u p.1) = [] :=
      List.filter_eq_nil.mpr (fun a _ => by simp [inRange_false_of_lt d u a.1 h])
    simp [processSlot, hf, SlotEntry.isError]
  | dual x y1 y2 ti xl yl =>
    have hf : (x.zip (y1.zip y2)).filter (fun p => inRange d u p.1) = [] :=
      List.filter_eq_nil.mpr (fun a _ => by simp [inRange_false_of_lt d u a.1 h])
    simp [processSlot, hf, SlotEntry.isError]

/-- A flatMap over pointwise-empty blocks is empty. -/
theorem flatMap_eq_nil_of {α β : Type} (l : List α) (f : α → List β)
    (h : ∀ a ∈ l, f a = []) : l.flatMap f = [] := by
  induction l with
  | nil => rfl
  | cons a t ih =>
    rw [List.flatMap_cons, h a (List.mem_cons_self a t),
      ih (fun b hb => h b (List.mem_cons_of_mem a hb))]
    rfl

/-- C7: whenever range_down exceeds range_up the aggregator's mask is empty
for every slot, so every entry of plot_averages carries the error marker and
the overall statistics carry the top-level marker. -/
theorem C7_inverted_window_all_errors :
    ∀ (gen : GenFun) (num_plots : Nat) (cache : Cache) (site specimen : String)
      (range_up range_down : ℚ), range_up < range_down →
      (∀ p ∈ ((calculate_range_based_averages gen num_plots cache site specimen
          range_up range_down).1).plot_averages, p.2.isError = true) ∧
      ((calculate_range_based_averages gen num_plots cache site specimen
          range_up range_down).1).overall_statistics = none := by
  intro gen np cache site sp up down h
  constructor
  · intro p hp
    simp only [calculate_range_based_averages, calcRangeAverages,
      plotAveragesOf] at hp
    obtain ⟨i, _, heq⟩ := List.mem_filterMap.mp hp
    cases hd : (generate_specimen_data_for_data_box gen np cache site sp).1[i]? with
    | none => rw [hd] at heq; exact Option.noConfusion heq
    | some ps =>
      rw [hd] at heq
      have hps : p = (i, (processSlot down up ps).1) :=
        (Option.some.injEq _ _).mp heq |>.symm
      rw [hps]
      exact (processSlot_inverted down up h ps).1
  · simp only [calculate_range_based_averages, calcRangeAverages]
    have hpool : allInRangeY np
        (generate_specimen_data_for_data_box gen np cache site sp).1 down up = [] := by
      apply flatMap_eq_nil_of
      intro i _
      cases hd : (generate_specimen_data_for_data_box gen np cache site sp).1[i]? with
      | none => simp [hd]
      | some ps => simp [hd, (processSlot_inverted down up h ps).2]
    simp [hpool]

/-- Witness for the inverted-window theorem at a concrete inverted call. -/
theorem C7_inverted_window_all_errors_witness :
    (1 : ℚ) < 2 ∧
    ((calculate_range_based_averages testGen 1 [] "Site A" "Sample A1" 1
        2).1).overall_statistics = none :=
  ⟨by norm_num,
   (C7_inverted_window_all_errors testGen 1 [] "Site A" "Sample A1" 1 2
     (by norm_num)).2⟩

/-- Projecting the x-components out of the mask-filtered pairs recovers the
filter over the x-list alone, given the generator's equal-length invariant. -/
theorem filter_zip_map_fst {β : Type} (P : ℚ → Bool) :
    ∀ (x : List ℚ) (y : List β), y.length = x.length →
      ((x.zip y).filter (fun p => P p.1)).map Prod.fst = x.filter P := by
  intro x
  induction x with
  | nil => intro y _; simp
  | cons a t ih =>
    intro y h
    cases y with
    | nil => simp at h
    | cons b tb =>
      have ht : tb.length = t.length := by simpa using h
      by_cases hP : P a
      · simp [List.filter_cons, hP, ih tb ht]
      · simp [List.filter_cons, hP, ih tb ht]

/-- An error-marked slot contributes nothing to the pooled values. -/
theorem processSlot_pool_empty_of_isError (d u : ℚ) (ps : PlotSeries)
    (he : (processSlot d u ps).1.isError = true) : (processSlot d u ps).2 = [] := by
  cases ps with
  | single x y ti xl yl =>
    by_cases hk : ((x.zip y).filter (fun p => inRange d u p.1)).isEmpty
    · simp [processSlot, hk]
    · exfalso
      revert he
      simp [processSlot, hk, SlotEntry.isError]
  | dual x y1 y2 ti xl yl =>
    by_cases hk : ((x.zip (y1.zip y2)).filter (fun p => inRange d u p.1)).isEmpty
    · simp [processSlot, hk]
    · exfalso
      revert he
      simp [processSlot, hk, SlotEntry.isError]

/-- For a well-formed series the slot's entry is the error marker exactly
when no x-value lies in the inclusive window. -/
theorem processSlot_isError_iff (d u : ℚ) (ps : PlotSeries)
    (hw : seriesWF ps = true) :
    (processSlot d u ps).1.isError = true ↔ xsInRange d u ps = [] := by
  cases ps with
  | single x y ti xl yl =>
    have hlen : y.length = x.length := by simpa [seriesWF] using hw
    have hiff : ((x.zip y).filter (fun p => inRange d u p.1) = []) ↔
        (x.filter (fun v => inRange d u v) = []) := by
      constructor
      · intro hk
        rw [← filter_zip_map_fst (fun v => inRange d u v) x y hlen, hk]
        rfl
      · intro hx
        have hm := filter_zip_map_fst (fun v => inRange d u v) x y hlen
        rw [hx] at hm
        exact List.map_eq_nil.mp hm
    by_cases hk : ((x.zip y).filter (fun p => inRange d u p.1)).isEmpty
    · have hknil : (x.zip y).filter (fun p => inRange d u p.1) = [] := by
        simpa using hk
      simp [processSlot, hk, SlotEntry.isError, xsInRange, hiff.mp hknil]
    · have hknil : ¬((x.zip y).filter (fun p => inRange d u p.1) = []) := by
        simpa using hk
      simp only [processSlot, hk, if_false, Bool.false_eq_true, xsInRange,
        SlotEntry.isError, false_iff]
      exact fun hx => hknil (hiff.mpr hx)
  | dual x y1 y2 ti xl yl =>
    have hlen : (y1.zip y2).length = x.length := by
      have h1 : y1.length = x.length := by simp [seriesWF] at hw; exact hw.1
      have h2 : y2.length = x.length := by simp [seriesWF] at hw; exact hw.2
      simp [h1, h2]
    have hiff : ((x.zip (y1.zip y2)).filter (fun p => inRange d u p.1) = []) ↔
        (x.filter (fun v => inRange d u v) = []) := by
      constructor
      · intro hk
        rw [← filter_zip_map_fst (fun v => inRange d u v) x (y1.zip y2) hlen, hk]
        rfl
      · intro hx
        have hm := filter_zip_map_fst (fun v => inRange d u v) x (y1.zip y2) hlen
        rw [hx] at hm
        exact List.map_eq_nil.mp hm
    by_cases hk : ((x.zip (y1.zip y2)).filter (fun p => inRange d u p.1)).isEmpty
    · have hknil : (x.zip (y1.zip y2)).filter (fun p => inRange d u p.1) = [] := by
        simpa using hk
      simp [processSlot, hk, SlotEntry.isError, xsInRange, hiff.mp hknil]
    · have hknil : ¬((x.zip (y1.zip y2)).filter (fun p => inRange d u p.1) = []) := by
        simpa using hk
      simp only [processSlot, hk, if_false, Bool.false_eq_true, xsInRange,
        SlotEntry.isError, false_iff]
      exact fun hx => hknil (hiff.mpr hx)

/-- The pool the implementation accumulates equals the pool the specification
describes, because error-marked slots contribute empty blocks. -/
theorem allInRangeY_eq_spec_pool (num_plots : Nat) (data : List PlotSeries)
    (d u : ℚ) :
    allInRangeY num_plots data d u =
      spec_pool_excluding_error_slots num_plots data d u := by
  unfold allInRangeY spec_pool_excluding_error_slots
  congr 1
  funext i
  cases hd : data[i]? with
  | none => rfl
  | some ps =>
    by_cases he : (processSlot d u ps).1.isError
    · simp [he, processSlot_pool_empty_of_isError d u ps he]
    · simp [he]

/-- C3: every slot present in the dataset appears in plot_averages; for
well-formed series its entry is the error marker exactly when the window
captures no x-value; the overall statistics are computed from the pool that
excludes error slots' values, with the top-level marker exactly when that
pool is empty; in particular all slots erroring forces the top-level marker.
The aggregator is a total function: no input raises. -/
theorem C3_empty_range_policy :
    ∀ (gen : GenFun) (num_plots : Nat) (cache : Cache) (site specimen : String)
      (range_up range_down : ℚ) (ra : RangeAverages),
      ra = (calculate_range_based_averages gen num_plots cache site specimen
        range_up range_down).1 →
      (∀ i ps, i < num_plots →
        (generate_specimen_data_for_data_box gen num_plots cache site
          specimen).1[i]? = some ps →
        ((i, (processSlot range_down range_up ps).1) ∈ ra.plot_averages ∧
          (seriesWF ps = true →
            ((processSlot range_down range_up ps).1.isError = true ↔
              xsInRange range_down range_up ps = [])))) ∧
      (ra.overall_statistics =
        (if (spec_pool_excluding_error_slots num_plots
            (generate_specimen_data_for_data_box gen num_plots cache site
              specimen).1 range_down range_up).isEmpty then none
         else some (mkOverall range_down range_up
           (spec_pool_excluding_error_slots num_plots
             (generate_specimen_data_for_data_box gen num_plots cache site
               specimen).1 range_down range_up)
           ((ra.plot_averages.filter (fun p => ! p.2.isError)).length)))) ∧
      ((∀ p ∈ ra.plot_averages, p.2.isError = true) →
        ra.overall_statistics = none) := by
  intro gen np cache site sp up down ra hra
  subst hra
  refine ⟨?_, ?_, ?_⟩
  · intro i ps hi hd
    constructor
    · simp only [calculate_range_based_averages, calcRangeAverages]
      exact List.mem_filterMap.mpr
        ⟨i, List.mem_range.mpr hi, by rw [hd]; rfl⟩
    · exact fun hw => processSlot_isError_iff down up ps hw
  · simp only [calculate_range_based_averages, calcRangeAverages,
      allInRangeY_eq_spec_pool]
  · intro hall
    simp only [calculate_range_based_averages, calcRangeAverages] at hall ⊢
    have hpool : allInRangeY np
        (generate_specimen_data_for_data_box gen np cache site sp).1 down up = [] := by
      apply flatMap_eq_nil_of
      intro i hi
      cases hd : (generate_specimen_data_for_data_box gen np cache site sp).1[i]? with
      | none => simp [hd]
      | some ps =>
        have hmem : (i, (processSlot down up ps).1) ∈
            plotAveragesOf np
              (generate_specimen_data_for_data_box gen np cache site sp).1
              down up :=
          List.mem_filterMap.mpr ⟨i, hi, by rw [hd]; rfl⟩
        have herr := hall _ hmem
        simp [hd, processSlot_pool_empty_of_isError down up ps herr]
    simp [hpool]

/-- Witness: the policy theorem evaluated on the concrete fixture, whose one
slot has both x-values inside the default window. -/
theorem C3_empty_range_policy_witness :
    ((0 : Nat) < 1 ∧
      (generate_specimen_data_for_data_box testGen 1 [] "Site A"
        "Sample A1").1[0]? =
        some (PlotSeries.single [1, 2] [12.3451, 12.3451] "" "" "")) ∧
    ((0, (processSlot 1 100
        (PlotSeries.single [1, 2] [12.3451, 12.3451] "" "" "")).1) ∈
      ((calculate_range_based_averages testGen 1 [] "Site A" "Sample A1" 100
        1).1).plot_averages) :=
  ⟨⟨by decide, by decide⟩,
   ((C3_empty_range_policy testGen 1 [] "Site A" "Sample A1" 100 1 _ rfl).1 0
     (PlotSeries.single [1, 2] [12.3451, 12.3451] "" "" "") (by decide)
     (by decide)).1⟩

/-- Indexing a list with getD over its whole index range rebuilds the list. -/
theorem range_map_getD (l : List String) :
    (List.range l.length).map (fun i => l.getD i "") = l := by
  induction l with
  | nil => rfl
  | cons a t ih =>
    rw [List.length_cons, List.range_succ_eq_map, List.map_cons, List.map_map]
    have hcomp : ((fun i => (a :: t).getD i "") ∘ Nat.succ) =
        (fun i => t.getD i "") := by
      funext i
      rfl
    rw [hcomp, ih]
    rfl

/-- C5: the summary builder writes exactly num_params entries, keyed by the
parameter labels in order (so under the shipped distinct labels the dict has
exactly num_params keys); every value is either N/A or a 5-significant-figure
formatted number; parameter index i reads strictly plot slot i: indices at or
beyond num_plots are always N/A, an error-free multi-line slot contributes
its formatted combined average and an error-free single-line slot its
formatted y average. -/
theorem C5_summary_builder :
    ∀ (gen : GenFun) (cfg : TestDataConfig) (cache : Cache)
      (site specimen : String) (range_up range_down : ℚ)
      (ra : RangeAverages) (summary : List (String × String)),
      ra = (calculate_range_based_averages gen cfg.num_plots cache site specimen
        range_up range_down).1 →
      summary = (get_range_based_specimen_summary gen cfg cache site specimen
        range_up range_down).1 →
      (summary.length = cfg.num_params) ∧
      (cfg.parameter_labels.length = cfg.num_params →
        summary.map Prod.fst = cfg.parameter_labels) ∧
      (cfg.parameter_labels.length = cfg.num_params →
        cfg.parameter_labels.Nodup → (summary.map Prod.fst).Nodup) ∧
      (∀ p ∈ summary, p.2 = "N/A" ∨ ∃ q, p.2 = format_significant_figures q 5) ∧
      (∀ i, i < cfg.num_params →
        summary[i]? =
          some ((data_display_labels cfg).getD i "", summaryValue cfg ra i)) ∧
      (∀ i, cfg.num_plots ≤ i → summaryValue cfg ra i = "N/A") ∧
      (∀ i m, i < cfg.num_plots →
        List.lookup i ra.plot_averages = some (SlotEntry.multi m) →
        summaryValue cfg ra i = format_significant_figures m.combined_average 5) ∧
      (∀ i s, i < cfg.num_plots →
        List.lookup i ra.plot_averages = some (SlotEntry.single s) →
        summaryValue cfg ra i = format_significant_figures s.y_average 5) := by
  intro gen cfg cache site specimen up down ra summary hra hs
  subst hra
  subst hs
  have hmapfst : cfg.parameter_labels.length = cfg.num_params →
      ((get_range_based_specimen_summary gen cfg cache site specimen up
        down).1).map Prod.fst = cfg.parameter_labels := by
    intro hlen
    simp only [get_range_based_specimen_summary, buildSummary, List.map_map]
    have hcomp : (Prod.fst ∘ fun i =>
        ((data_display_labels cfg).getD i "", summaryValue cfg
          (calculate_range_based_averages gen cfg.num_plots cache site specimen
            up down).1 i)) = (fun i => cfg.parameter_labels.getD i "") := by
      funext i
      rfl
    rw [hcomp, ← hlen, range_map_getD]
  refine ⟨?_, hmapfst, ?_, ?_, ?_, ?_, ?_, ?_⟩
  · simp [get_range_based_specimen_summary, buildSummary]
  · intro hlen hnd
    rw [hmapfst hlen]
    exact hnd
  · intro p hp
    simp only [get_range_based_specimen_summary, buildSummary] at hp
    obtain ⟨i, _, rfl⟩ := List.mem_map.mp hp
    simp only [summaryValue]
    by_cases hi : i < cfg.num_plots
    · rw [if_pos hi]
      cases hl : List.lookup i ((calculate_range_based_averages gen
          cfg.num_plots cache site specimen up down).1).plot_averages with
      | none => exact Or.inl rfl
      | some e =>
        cases e with
        | single s => exact Or.inr ⟨s.y_average, rfl⟩
        | multi m => exact Or.inr ⟨m.combined_average, rfl⟩
        | singleError => exact Or.inl rfl
        | multiError => exact Or.inl rfl
    · rw [if_neg hi]
      exact Or.inl rfl
  · intro i hi
    simp only [get_range_based_specimen_summary, buildSummary,
      List.getElem?_map, List.getElem?_range, hi, if_pos]
    rfl
  · intro i hi
    simp only [summaryValue, if_neg (by omega : ¬ i < cfg.num_plots)]
  · intro i m hi hl
    simp only [summaryValue, if_pos hi, hl]
  · intro i s hi hl
    simp only [summaryValue, if_pos hi, hl]

/-- Witness: the summary-builder theorem evaluated on the concrete fixture. -/
theorem C5_summary_builder_witness :
    (get_range_based_specimen_summary testGen testCfg [] "Site A" "Sample A1"
      100 1).1.length = testCfg.num_params ∧
    testCfg.parameter_labels.length = testCfg.num_params ∧
    (get_range_based_specimen_summary testGen testCfg [] "Site A" "Sample A1"
      100 1).1.map Prod.fst = testCfg.parameter_labels :=
  ⟨(C5_summary_builder testGen testCfg [] "Site A" "Sample A1" 100 1 _ _ rfl
     rfl).1,
   by decide,
   (C5_summary_builder testGen testCfg [] "Site A" "Sample A1" 100 1 _ _ rfl
     rfl).2.1 (by decide)⟩

/-- dict assignment under a fresh key is an append. -/
theorem dictInsert_fresh {V : Type} (k : String) (v : V) (d : List (String × V))
    (h : (d.find? (fun p => p.1 == k)).isSome = false) :
    dictInsert k v d = d ++ [(k, v)] := by
  simp [dictInsert, h]

/-- C10: the read-path operations leave a present cache entry alone (the
cache after the call is the cache before it), and on a missing key append
exactly the one new entry, leaving every existing entry in place; the
condition evaluator appends only when its early pass-through guards do not
fire first. -/
theorem C10_read_path_cache_frame :
    ∀ (gen : GenFun) (cfg : TestDataConfig) (cache : Cache)
      (site specimen : String) (parameter_index : ℤ) (condition_str : String)
      (range_up range_down : ℚ),
      (∀ d, cacheFind cache (cacheKey site specimen) = some d →
        (generate_specimen_data_for_data_box gen cfg.num_plots cache site
          specimen).2 = cache ∧
        (calculate_range_based_averages gen cfg.num_plots cache site specimen
          range_up range_down).2 = cache ∧
        (get_range_based_specimen_summary gen cfg cache site specimen range_up
          range_down).2 = cache ∧
        (check_parameter_condition_independently gen cfg cache site specimen
          parameter_index condition_str range_up range_down).2 = cache) ∧
      (cacheFind cache (cacheKey site specimen) = none →
        (generate_specimen_data_for_data_box gen cfg.num_plots cache site
          specimen).2 =
          cache ++ [(cacheKey site specimen,
            specimen_gen_data gen cfg.num_plots site specimen)] ∧
        (calculate_range_based_averages gen cfg.num_plots cache site specimen
          range_up range_down).2 =
          cache ++ [(cacheKey site specimen,
            specimen_gen_data gen cfg.num_plots site specimen)] ∧
        (get_range_based_specimen_summary gen cfg cache site specimen range_up
          range_down).2 =
          cache ++ [(cacheKey site specimen,
            specimen_gen_data gen cfg.num_plots site specimen)] ∧
        ((check_parameter_condition_independently gen cfg cache site specimen
            parameter_index condition_str range_up range_down).2 = cache ∨
          (check_parameter_condition_independently gen cfg cache site specimen
            parameter_index condition_str range_up range_down).2 =
            cache ++ [(cacheKey site specimen,
              specimen_gen_data gen cfg.num_plots site specimen)])) := by
  intro gen cfg cache site sp idx cond up down
  constructor
  · intro d h
    have hbox : (generate_specimen_data_for_data_box gen cfg.num_plots cache
        site sp).2 = cache := by
      simp [generate_specimen_data_for_data_box, h]
    refine ⟨hbox, hbox, hbox, ?_⟩
    by_cases h1 : idx < 0 ∨ (cfg.parameter_labels.length : ℤ) ≤ idx
    · simp [check_parameter_condition_independently, h1]
    · by_cases h2 : (trimChars cond.data).isEmpty
      · simp only [check_parameter_condition_independently, if_neg h1,
          if_pos h2]
      · simp only [check_parameter_condition_independently, if_neg h1,
          if_neg h2]
        exact hbox
  · intro h
    have hfind : cache.find? (fun p => p.1 == cacheKey site sp) = none :=
      Option.map_eq_none'.mp h
    have hbox : (generate_specimen_data_for_data_box gen cfg.num_plots cache
        site sp).2 =
        cache ++ [(cacheKey site sp,
          specimen_gen_data gen cfg.num_plots site sp)] := by
      simp only [generate_specimen_data_for_data_box, h]
      exact dictInsert_fresh _ _ _ (by rw [hfind]; rfl)
    refine ⟨hbox, hbox, hbox, ?_⟩
    by_cases h1 : idx < 0 ∨ (cfg.parameter_labels.length : ℤ) ≤ idx
    · left
      simp [check_parameter_condition_independently, h1]
    · by_cases h2 : (trimChars cond.data).isEmpty
      · left
        simp only [check_parameter_condition_independently, if_neg h1,
          if_pos h2]
      · right
        simp only [check_parameter_condition_independently, if_neg h1,
          if_neg h2]
        exact hbox

/-- Witness: frame behavior at a concrete hit and a concrete miss. -/
theorem C10_read_path_cache_frame_witness :
    cacheFind [] (cacheKey "Site A" "Sample A1") = none ∧
    (generate_specimen_data_for_data_box testGen testCfg.num_plots [] "Site A"
      "Sample A1").2 =
      [] ++ [(cacheKey "Site A" "Sample A1",
        specimen_gen_data testGen testCfg.num_plots "Site A" "Sample A1")] :=
  ⟨by decide,
   ((C10_read_path_cache_frame testGen testCfg [] "Site A" "Sample A1" 0 ">3"
     100 1).2 (by decide)).1⟩

/-- Appending an entry with a different key preserves a failed lookup. -/
theorem find?_append_none {V : Type} (c : List (String × V)) (e : String × V)
    (k : String) (h1 : c.find? (fun p => p.1 == k) = none)
    (h2 : (e.1 == k) = false) :
    (c ++ [e]).find? (fun p => p.1 == k) = none := by
  induction c with
  | nil => simp [List.find?, h2]
  | cons a t ih =>
    rw [List.cons_append]
    cases ha : (a.1 == k) with
    | true =>
      simp only [List.find?, ha] at h1
      exact Option.noConfusion h1
    | false =>
      simp only [List.find?, ha] at h1 ⊢
      exact ih h1

/-- Folding dict assignments over fresh, pairwise-distinct keys appends the
entries in order. -/
theorem foldl_dictInsert_fresh {α V : Type} (key : α → String) (val : α → V) :
    ∀ (l : List α) (c : List (String × V)),
      (∀ a ∈ l, c.find? (fun p => p.1 == key a) = none) →
      (l.map key).Nodup →
      l.foldl (fun acc a => dictInsert (key a) (val a) acc) c =
        c ++ l.map (fun a => (key a, val a)) := by
  intro l
  induction l with
  | nil => intro c _ _; simp
  | cons a t ih =>
    intro c hfresh hnodup
    rw [List.map_cons] at hnodup
    have hnd := List.nodup_cons.mp hnodup
    have h1' : ∀ b ∈ t,
        (c ++ [(key a, val a)]).find? (fun p => p.1 == key b) = none := by
      intro b hb
      apply find?_append_none
      · exact hfresh b (List.mem_cons_of_mem a hb)
      · have hne : key a ≠ key b := by
          intro he
          exact hnd.1 (he ▸ List.mem_map_of_mem key hb)
        simpa using hne
    rw [List.foldl_cons,
      dictInsert_fresh _ _ _ (by rw [hfresh a (List.mem_cons_self a t)]; rfl),
      ih (c ++ [(key a, val a)]) h1' hnd.2]
    simp

/-- C8: after eager initialization from an empty cache — which is exactly
what construction does and what every clear_data_cache call repeats — the
cache holds one entry per (site, specimen) pair of the catalog in order, so
get_cache_info reports cached_specimens equal to the catalog's total
specimen count and cache_complete true. -/
theorem C8_cache_completeness :
    ∀ (gen : GenFun) (num_plots : Nat) (stale : Cache),
      (get_cache_info sitesCatalog
        (_initialize_all_data gen num_plots sitesCatalog [])).cached_specimens =
        (get_cache_info sitesCatalog
          (_initialize_all_data gen num_plots sitesCatalog [])).total_specimens ∧
      (get_cache_info sitesCatalog
        (_initialize_all_data gen num_plots sitesCatalog [])).cache_complete =
        true ∧
      (get_cache_info sitesCatalog
        (_initialize_all_data gen num_plots sitesCatalog [])).cached_keys =
        (initPairs sitesCatalog).map (fun p => cacheKey p.1 p.2) ∧
      clear_data_cache gen num_plots sitesCatalog stale =
        _initialize_all_data gen num_plots sitesCatalog [] ∧
      (get_cache_info sitesCatalog
        (clear_data_cache gen num_plots sitesCatalog stale)).cache_complete =
        true := by
  intro gen np stale
  have hinit : _initialize_all_data gen np sitesCatalog [] =
      [] ++ (initPairs sitesCatalog).map
        (fun p => (cacheKey p.1 p.2, specimen_gen_data gen np p.1 p.2)) := by
    apply foldl_dictInsert_fresh
    · intro a _
      rfl
    · decide
  have hlen : (_initialize_all_data gen np sitesCatalog []).length =
      (sitesCatalog.map (fun p => p.2.length)).sum := by
    rw [hinit]
    simp only [List.nil_append, List.length_map]
    decide
  refine ⟨?_, ?_, ?_, rfl, ?_⟩
  · simpa [get_cache_info] using hlen
  · simp [get_cache_info, hlen]
  · rw [hinit]
    simp only [get_cache_info, List.nil_append, List.map_map]
    rfl
  · simp [get_cache_info, clear_data_cache, hlen]

/-- Every specimen's value row has exactly num_params entries: the loop
visits each display label (there are num_params of them) and appends a
number for every one, 0.0 included. -/
theorem summary_values_length (cfg : TestDataConfig)
    (summary : List (String × String))
    (h : (data_display_labels cfg).length = cfg.num_params) :
    (summary_values cfg summary).length = cfg.num_params := by
  unfold summary_values
  have hfilt : ((data_display_labels cfg).enum.filter
      (fun p => decide (p.1 < cfg.num_params))).length =
      (data_display_labels cfg).enum.length := by
    apply List.filter_length_eq_length.mpr
    intro a ha
    obtain ⟨hlt, _⟩ := List.getElem?_eq_some_iff.mp
      (List.mem_enum_iff_getElem?.mp ha)
    simp only [decide_eq_true_eq]
    omega
  rw [List.length_map, hfilt, List.enum_length, h]

/-- The summary-collection loop returns one summary per specimen. -/
theorem site_specimen_summaries_length (gen : GenFun) (cfg : TestDataConfig)
    (site : String) (range_up range_down : ℚ) :
    ∀ (c : Cache) (specs : List String),
      (site_specimen_summaries gen cfg site range_up range_down c
        specs).1.length = specs.length := by
  intro c specs
  induction specs generalizing c with
  | nil => rfl
  | cons a t ih => simp [site_specimen_summaries, ih]

/-- filterMap with an everywhere-defined function preserves length. -/
theorem filterMap_length_of_isSome {α β : Type} (f : α → Option β) :
    ∀ (l : List α), (∀ a ∈ l, (f a).isSome) →
      (l.filterMap f).length = l.length := by
  intro l
  induction l with
  | nil => intro _; rfl
  | cons a t ih =>
    intro h
    rw [List.filterMap_cons]
    cases hf : f a with
    | none =>
      have hsome := h a (List.mem_cons_self a t)
      rw [hf] at hsome
      exact absurd hsome (by simp)
    | some b =>
      simp only [List.length_cons]
      rw [ih (fun x hx => h x (List.mem_cons_of_mem a hx))]

/-- Per-parameter bundles over rows of uniform positive width: nonnegative
variance, and a count equal to the number of rows. -/
theorem computeParamStats_spec (n : Nat) (vals : List (List ℚ))
    (hall : ∀ v ∈ vals, v.length = n) :
    ∀ st ∈ computeParamStats n vals, 0 ≤ st.var ∧ st.count = vals.length := by
  intro st hst
  unfold computeParamStats at hst
  cases vals with
  | nil => simp at hst
  | cons v0 vt =>
    obtain ⟨idx, hidx, rfl⟩ := List.mem_map.mp hst
    have h0 : v0.length = n := hall v0 (List.mem_cons_self v0 vt)
    have hidxn : idx < n := by
      have := List.mem_range.mp hidx
      omega
    have hsome : ∀ v ∈ v0 :: vt, (v[idx]?).isSome := by
      intro v hv
      have hv' : idx < v.length := by rw [hall v hv]; exact hidxn
      simp [List.getElem?_eq_getElem hv']
    have hpvlen : ((v0 :: vt).filterMap (fun v => v[idx]?)).length =
        (v0 :: vt).length := filterMap_length_of_isSome _ _ hsome
    have hpvne : ¬((v0 :: vt).filterMap (fun v => v[idx]?)).isEmpty = true := by
      intro hcontra
      rw [List.isEmpty_iff] at hcontra
      rw [hcontra] at hpvlen
      simp at hpvlen
    rw [if_neg hpvne]
    exact ⟨listVar_nonneg _, by simpa using hpvlen⟩

/-- C2 (amended): every stat bundle the site aggregator returns has
nonnegative variance (hence nonnegative reported std), and its count equals
the number of selected specimens — every selected specimen contributes a
value for every parameter slot, 0.0 standing in for N/A or unparseable
display strings, so none is excluded from the count. -/
theorem C2_site_stats_amended :
    ∀ (gen : GenFun) (cfg : TestDataConfig) (sites : List (String × List String))
      (cache : Cache) (site_name : String) (selected_items : List String)
      (range_up range_down : ℚ),
      (data_display_labels cfg).length = cfg.num_params →
      0 < cfg.num_params →
      ∀ st ∈ ((generate_single_site_plot_data gen cfg sites cache site_name
          selected_items range_up range_down).1.getD
          emptySitePlotData).parameter_stats,
        0 ≤ st.var ∧
        st.count = ((generate_single_site_plot_data gen cfg sites cache
          site_name selected_items range_up range_down).1.getD
          emptySitePlotData).specimen_count := by
  intro gen cfg sites cache site items up down hlen hpos st hst
  by_cases h1 : site = "" ∨ site = "Select a site..."
  · rw [generate_single_site_plot_data, if_pos h1] at hst
    simp [emptySitePlotData] at hst
  · by_cases h2 : (parseSelectedForSite site items).isEmpty &&
        (sites.lookup site).isNone
    · rw [generate_single_site_plot_data, if_neg h1, if_pos h2] at hst
      simp [emptySitePlotData] at hst
    · rw [generate_single_site_plot_data, if_neg h1, if_neg h2] at hst ⊢
      simp only [Option.getD_some] at hst ⊢
      set specs := if (parseSelectedForSite site items).isEmpty then
        (sites.lookup site).getD [] else parseSelectedForSite site items with hspecs
      set sc := site_specimen_summaries gen cfg site up down cache specs
        with hsc
      have hrows : ∀ v ∈ ((specs.zip sc.1).map (fun p =>
          ({ specimen := p.1, values := summary_values cfg p.2 }
            : SpecimenValues))).map (fun r => r.values),
          v.length = cfg.num_params := by
        intro v hv
        rw [List.map_map] at hv
        obtain ⟨p, _, rfl⟩ := List.mem_map.mp hv
        exact summary_values_length cfg p.2 hlen
      have hkeep : (((specs.zip sc.1).map (fun p =>
          ({ specimen := p.1, values := summary_values cfg p.2 }
            : SpecimenValues))).map (fun r => r.values)).filter
          (fun v => !v.isEmpty) =
          ((specs.zip sc.1).map (fun p =>
          ({ specimen := p.1, values := summary_values cfg p.2 }
            : SpecimenValues))).map (fun r => r.values) := by
        apply List.filter_eq_self.mpr
        intro v hv
        have hv' := hrows v hv
        have : v ≠ [] := by
          intro hnil
          rw [hnil] at hv'
          simp at hv'
          omega
        simpa using this
      have hcount := computeParamStats_spec cfg.num_params _
        (fun v hv => hrows v (hkeep ▸ hv)) st hst
      refine ⟨hcount.1, ?_⟩
      rw [hcount.2, hkeep]
      rw [List.length_map, List.length_map, List.length_zip,
        site_specimen_summaries_length]
      omega

/-- C2 counterexample against the claim as frozen: with a window capturing
no data point both specimens display N/A, so neither contributes a
parseable value for the parameter, yet the returned count is 2 (the N/A
specimens contribute 0.0 and are counted, not excluded). -/
theorem C2_count_counterexample :
    ((generate_single_site_plot_data testGen testCfg testSites [] "Site A"
        ["Site A → Sample A1", "Site A → Sample A2"] 4 3).1.getD
        emptySitePlotData).parameter_stats.map (fun st => st.count) = [2] ∧
    parseable_contributors
      (site_specimen_summaries testGen testCfg "Site A" 4 3 []
        ["Sample A1", "Sample A2"]).1 "Temperature" = 0 ∧
    (2 : Nat) ≠ 0 :=
  ⟨by decide, by decide, by decide⟩

/-- Witness applying the amended statement to the concrete fixture, where
the single parameter's stat bundle is mean 12.345, variance 0, count 2. -/
theorem C2_site_stats_amended_witness :
    0 ≤ (ParamStat.mk (2469 / 200) 0 2).var ∧
    (ParamStat.mk (2469 / 200) 0 2).count =
      ((generate_single_site_plot_data testGen testCfg testSites [] "Site A"
        ["Site A → Sample A1", "Site A → Sample A2"] 100 1).1.getD
        emptySitePlotData).specimen_count :=
  C2_site_stats_amended testGen testCfg testSites [] "Site A"
    ["Site A → Sample A1", "Site A → Sample A2"] 100 1 (by decide) (by decide)
    (ParamStat.mk (2469 / 200) 0 2) (by decide)

end EZsciplot
